import Mathlib

/- A shallow embedding of `src/chatbot.py`: a Streamlit chat front-end that
forwards turns to an LM Studio endpoint and persists each session transcript
to `sessions/<id>.json`.  Pure data is modelled directly; the filesystem is a
map from session ids to file contents, the network call is parametrised by
the observable outcome of the HTTP exchange, and logging is modelled as an
explicit list of emitted log records. -/

namespace Chatbot

/-- One chat message, the Python dict `\x7b"role": r, "content": c\x7d` used
throughout `chatbot.py`. -/
structure Message where
  role : String
  content : String
deriving DecidableEq, Repr

/-- The observable content of the per-session history file
`sessions/<session_id>.json`.  `missing`: no file exists (`history_path.exists()`
is false).  `corrupt`: opening or `json.load` raises (invalid JSON or I/O
failure).  `stored msgs`: the file holds the JSON serialization of `msgs`,
as written by `json.dump` (which round-trips lists of string dicts exactly). -/
inductive FileContent where
  | missing : FileContent
  | corrupt : FileContent
  | stored : List Message → FileContent
deriving DecidableEq, Repr

/-- The filesystem under `HISTORY_DIR`, one file per session id. -/
abbrev FS : Type := String → FileContent

/-- Writing one file: `open(history_path, "w")` + `json.dump`. -/
def FS.write (fs : FS) (id : String) (c : FileContent) : FS :=
  fun x => if x = id then c else fs x

/-- `load_history(session_id)` of `chatbot.py` (lines 124-133).  Returns the
loaded transcript together with the list of log records the call emits.
Missing file falls through to `return []`; a raised exception hits the bare
`except: return []`, which emits no log record. -/
def load_history (fs : FS) (session_id : String) : List Message × List String :=
  match fs session_id with
  | FileContent.missing => ([], [])
  | FileContent.corrupt => ([], [])
  | FileContent.stored msgs => (msgs, [])

/-- `save_history(session_id, history)` of `chatbot.py` (lines 135-144).
`history[-50:]` keeps the last 50 entries, i.e. drops `len - 50` from the
front; the slice is a copy, the caller still holds the full list.  `writeOk`
models whether the `open`/`json.dump` succeeds; on failure the bare
`except: pass` swallows the error and the file is left as it was. -/
def save_history (fs : FS) (session_id : String) (history : List Message)
    (writeOk : Bool) : FS :=
  let history2 := if history.length > 50
    then history.drop (history.length - 50) else history
  if writeOk then FS.write fs session_id (FileContent.stored history2) else fs

/-- The module constant `SYSTEM_PROMPT` of `chatbot.py` (lines 27-113). -/
def SYSTEM_PROMPT : String :=
  "SYSTEM_PROMPT = \nYou are an ELITE DATA ENGINEER & ARCHITECT specializing in high-performance Python.\nWork locally. Prioritize: Correctness > Performance > Elegance.\n\n### CORE RULES (ABSOLUTE - NEVER BREAK)\n\n**REFUSE if:**\n1. iterrows/itertuples on DataFrame > 10K rows → Vectorize instead.\n2. Pandas on >500MB → Use Polars lazy (scan_csv + lazy evaluation).\n3. Input not validated → Add sanitization (SQL injection, type coercion).\n4. Secret hardcoded → Enforce env vars + python-dotenv.\n5. SQL dynamic (f-strings) → Parameterized queries mandatory.\n6. Bare except / no explicit error handling → Specify exception type.\n7. **No type hints on function signature → ADD THEM NOW.**\n8. O(n²) if O(n log n) possible → Refuse and explain.\n9. Memory explosion (load all >1GB RAM) → Chunking / streaming / Polars lazy.\n10. **No try/except around file I/O → ADD IT NOW.**\n11. **No docstring (Args + Returns) → ADD IT NOW.**\n12. **No input validation (file exists, correct type) → ADD IT NOW.**\n\n**IF YOU BREAK ANY RULE → YOU FAIL. DO NOT BREAK RULES.**\n\n### RESPONSE FORMAT (STRICT)\n\n1. **THINKING** (EN FRANÇAIS: identifier bottleneck + Big O + edge cases)\n2. **DECISION** (Go or Refuse + raison EN FRANÇAIS)\n3. **CODE** (MUST HAVE: type hints + docstring + error handling + validation)\n4. **EXPLANATION** (EN FRANÇAIS: Pourquoi ce choix. Big O explicite. Trade-offs.)\n5. **EDGE CASES** (EN FRANÇAIS: empty, NaN, null, division par zéro, file not found)\n6. **HONESTY** (EN FRANÇAIS: Si hors scope → \"nécessite review externe\")\n\n### TECHNICAL STANDARDS (NON-NEGOTIABLE)\n\n**Python Code Structure:**\n- 3.11+\n- **EVERY function MUST have:**\n  - Type hints on parameters AND return type (e.g., `def func(x: str) -> dict:`)\n  - Docstring with Args and Returns (e.g., `\"\"\"Load CSV. Args: file_path (str). Returns: dict.\"\"\"`)\n  - Try/except around risky operations (file I/O, division, etc.)\n  - Input validation (check file exists, correct type, etc.)\n\n**Data Handling:**\n- Polars lazy >500MB (scan_csv + lazy evaluation).\n- Pandas vectorized <500MB (groupby, boolean indexing, NO LOOPS).\n- Chunking >1GB.\n- NEVER iterrows/apply on large data.\n\n**Security (CRITICAL):**\n- Secrets: ENV VARS + python-dotenv. Never hardcoded.\n- Input validation: Type check + sanitize (SQL/path/command injection).\n- No PII in logs.\n- Lock dependencies explicitly.\n\n**Error Handling (MANDATORY):**\n- FileNotFoundError for file operations.\n- ValueError for invalid inputs.\n- TypeError for type mismatches.\n- No bare except.\n- Try/except wraps I/O and risky operations.\n\n**Performance:**\n- Big O always mentioned (O(n), O(n log n), O(n²), etc.).\n- Memory estimate if >500MB.\n- Vectorization prioritized.\n\n### LANGUAGE\n- **Explanation & THINKING:** FRANÇAIS OBLIGATOIRE.\n- **Code:** English (standard).\n- **Comments in code:** English.\n\n### CONTEXT\n- Data Engineer + Data Scientist (13 years electrical engineering).\n- Local projects: Streamlit, LM Studio, parking dashboards, cybersec tools.\n- RTX 3080 10GB, Qwen2.5-Coder 7B.\n- Prefer: Local, confidential, simple + rigorous code.\n- Native: French (Aix-en-Provence).\n\n### REFUSALS\n- Malware, exploits, malicious reverse-engineering.\n- Massive scraping without legal/ToS compliance.\n- Anything exposing credentials, PII, secrets.\n\nOtherwise: **EXECUTE STRICTLY FOLLOWING ALL RULES.**\n\n---\nApply every single rule. No exceptions.\n"

/-- What `response.json()` yields once an HTTP response was received.
`notJson`: `response.json()` raises.  `missingField`: JSON parses but the
path `choices[0].message.content` is absent (`KeyError`/`IndexError`).
`content s`: the completion field is present and holds `s`. -/
inductive LMBody where
  | notJson : LMBody
  | missingField : LMBody
  | content : String → LMBody
deriving DecidableEq, Repr

/-- The observable outcome of the `requests.post` exchange. -/
inductive LMOutcome where
  | timeout : LMOutcome
  | connectionError : LMOutcome
  | response : Nat → LMBody → LMOutcome
  | otherException : LMOutcome
deriving DecidableEq, Repr

/-- `query_lm_studio(messages)` of `chatbot.py` (lines 146-167), parametrised
by the outcome of the HTTP exchange.  `raise_for_status()` raises
`requests.exceptions.HTTPError` exactly for status codes 400-599; that
exception, like a JSON parse failure or a missing field, is only caught by
the final generic `except Exception` arm, which returns the same message. -/
def query_lm_studio (messages : List Message) (outcome : LMOutcome) :
    Option String × String :=
  match outcome with
  | LMOutcome.timeout => (none, "⏱️ Timeout")
  | LMOutcome.connectionError => (none, "❌ Pas de connexion")
  | LMOutcome.response status body =>
    if 400 ≤ status ∧ status < 600 then (none, "⚠️ Erreur")
    else
      match body with
      | LMBody.notJson => (none, "⚠️ Erreur")
      | LMBody.missingField => (none, "⚠️ Erreur")
      | LMBody.content s => (some s, "")
  | LMOutcome.otherException => (none, "⚠️ Erreur")

/-- The four environment values read at startup (lines 12-15); `none` is an
unset variable, `some ""` one set to the empty string. -/
structure Env where
  LM_STUDIO_URL : Option String
  MODEL_NAME : Option String
  SESSION_SECRET : Option String
  AUTH_PASSWORD : Option String
deriving DecidableEq, Repr

/-- Python truthiness of `os.getenv` results: `None` and `""` are falsy. -/
def truthy (v : Option String) : Bool :=
  match v with
  | none => false
  | some s => s ≠ ""

/-- The startup gate (lines 17-19): `if not all([...])` shows one fixed error
and stops.  Returns the message displayed before `st.stop()`, or `none` when
startup proceeds. -/
def startup_message (e : Env) : Option String :=
  if !(truthy e.LM_STUDIO_URL && truthy e.MODEL_NAME
      && truthy e.SESSION_SECRET && truthy e.AUTH_PASSWORD)
  then some "❌ Variables d'env manquantes"
  else none

/-- The per-browser-session mutable state: `st.session_state.history` and
`st.session_state.session_id`. -/
structure ChatState where
  history : List Message
  sessionId : String
deriving DecidableEq, Repr

/-- Line 212: `messages_payload = [\x7b"role": "system", ...\x7d] + st.session_state.history`. -/
def build_payload (history : List Message) : List Message :=
  Message.mk "system" SYSTEM_PROMPT :: history

/-- Line 208: `if user_input and user_input.strip():` — a `None`/empty or
whitespace-only input is ignored.  `user_input.strip()` is truthy exactly when
some character of the input is not whitespace. -/
def input_accepted (user_input : String) : Bool :=
  user_input ≠ "" && user_input.data.any (fun c => !c.isWhitespace)

/-- The chat input handler of `chatbot.py` (lines 208-222), one turn:
append the user message, query the endpoint with the system prompt
prepended, and on success append the assistant reply and persist; on
failure (`if error_msg:`) only display the error. -/
def handle_input (s : ChatState) (fs : FS) (user_input : String)
    (outcome : LMOutcome) (writeOk : Bool) : ChatState × FS :=
  if input_accepted user_input then
    let history1 := s.history ++ [Message.mk "user" user_input]
    let r := query_lm_studio (build_payload history1) outcome
    if r.2 ≠ "" then
      ({ s with history := history1 }, fs)
    else
      let history2 := history1 ++ [Message.mk "assistant" (r.1.getD "")]
      ({ s with history := history2 },
        save_history fs s.sessionId history2 writeOk)
  else (s, fs)

/-- Modelled from the spec: `src/chatbot.py` contains no reset control (the
spec describes it for sibling variants).  Spec 4.4: "Reset: clears in-memory
Transcript and persists an empty Transcript under the same session id; does
not rotate the session id", via spec 4.2 `clear(id)`: "overwrite the file
with an empty Transcript". -/
def reset_conversation (s : ChatState) (fs : FS) : ChatState × FS :=
  ({ s with history := [] }, save_history fs s.sessionId [] true)


/-! Theorems settling the claims. -/

theorem query_lm_studio_messages_irrel (m m' : List Message) (b : LMOutcome) :
    query_lm_studio m b = query_lm_studio m' b := rfl

/-- C1: for every transcript of length greater than 50, `save_history` followed by
`load_history` on the same session id yields exactly the most recent 50 messages
(the suffix after dropping `length - 50` entries from the front), in their
original order. -/
theorem c1_save_load_keeps_last_fifty (fs : FS) (id : String) (T : List Message)
    (h : T.length > 50) :
    (load_history (save_history fs id T true) id).1 = T.drop (T.length - 50) ∧
    (load_history (save_history fs id T true) id).1.length = 50 := by
  have hsl : save_history fs id T true
      = FS.write fs id (FileContent.stored (T.drop (T.length - 50))) := by
    unfold save_history
    simp [h]
  rw [hsl]
  unfold load_history FS.write
  simp
  omega

/-- Witness for C1 at a concrete 51-message transcript. -/
theorem c1_witness :
    (List.replicate 51 (Message.mk "user" "x")).length > 50 ∧
    ((load_history (save_history (fun _ => FileContent.missing) "s"
        (List.replicate 51 (Message.mk "user" "x")) true) "s").1
      = (List.replicate 51 (Message.mk "user" "x")).drop
          ((List.replicate 51 (Message.mk "user" "x")).length - 50) ∧
     (load_history (save_history (fun _ => FileContent.missing) "s"
        (List.replicate 51 (Message.mk "user" "x")) true) "s").1.length = 50) :=
  ⟨by decide, c1_save_load_keeps_last_fifty _ _ _ (by decide)⟩

/-- C6: round-trip — for every transcript of length at most 50 and every
session id, `save_history` followed by `load_history` returns the transcript
unchanged. -/
theorem c6_save_load_roundtrip (fs : FS) (id : String) (T : List Message)
    (h : T.length ≤ 50) :
    (load_history (save_history fs id T true) id).1 = T := by
  have h2 : ¬ (T.length > 50) := by omega
  unfold save_history
  simp only [h2, if_false]
  unfold load_history FS.write
  simp

/-- Witness for C6 at a concrete two-message transcript. -/
theorem c6_witness :
    ([Message.mk "user" "Bonjour", Message.mk "assistant" "Salut !"] : List Message).length ≤ 50 ∧
    (load_history (save_history (fun _ => FileContent.missing) "s"
        [Message.mk "user" "Bonjour", Message.mk "assistant" "Salut !"] true) "s").1
      = [Message.mk "user" "Bonjour", Message.mk "assistant" "Salut !"] :=
  ⟨by decide, c6_save_load_roundtrip _ _ _ (by decide)⟩

/-- C2: when the completion call fails, the user message just appended stays in
the in-memory transcript, no assistant message is appended, and the filesystem
is unchanged from before the call. -/
theorem c2_failed_turn_not_persisted (s : ChatState) (fs : FS) (user_input : String)
    (outcome : LMOutcome) (writeOk : Bool)
    (hin : input_accepted user_input = true)
    (herr : (query_lm_studio [] outcome).2 ≠ "") :
    (handle_input s fs user_input outcome writeOk).1.history
      = s.history ++ [Message.mk "user" user_input] ∧
    (handle_input s fs user_input outcome writeOk).2 = fs := by
  have herr2 : (query_lm_studio
      (build_payload (s.history ++ [Message.mk "user" user_input])) outcome).2 ≠ "" := herr
  unfold handle_input
  simp [hin, herr2]

/-- Witness for C2: the spec scenario — empty transcript, input "Test", the
endpoint times out. -/
theorem c2_witness :
    input_accepted "Test" = true ∧
    (query_lm_studio [] LMOutcome.timeout).2 ≠ "" ∧
    ((handle_input (ChatState.mk [] "abc") (fun _ => FileContent.missing) "Test"
        LMOutcome.timeout true).1.history = [] ++ [Message.mk "user" "Test"] ∧
     (handle_input (ChatState.mk [] "abc") (fun _ => FileContent.missing) "Test"
        LMOutcome.timeout true).2 = (fun _ => FileContent.missing)) :=
  ⟨by decide, by decide,
    c2_failed_turn_not_persisted (ChatState.mk [] "abc") _ _ _ _ (by decide) (by decide)⟩

/-- C3 counterexample: a response that parses with status 200 and an empty
completion text is returned as a success `(some "", "")`, not as a failure —
there is no EmptyCompletion error kind in the code. -/
theorem c3_empty_completion_is_success :
    query_lm_studio (build_payload []) (LMOutcome.response 200 (LMBody.content ""))
      = (some "", "") := by decide

/-- C3 (amended): the client returns success `(some text, "")` whenever a
response with a non-error HTTP status carries the completion field, even when
the completion text is empty; no EmptyCompletion failure exists. -/
theorem c3_parse_success_returns_content (messages : List Message) (status : Nat)
    (t : String) (h : status < 400) :
    query_lm_studio messages (LMOutcome.response status (LMBody.content t))
      = (some t, "") := by
  have h2 : ¬ (400 ≤ status ∧ status < 600) := by omega
  unfold query_lm_studio
  simp [h2]

/-- Witness for the amended C3 at status 200 and empty completion text. -/
theorem c3_witness :
    (200 : Nat) < 400 ∧
    query_lm_studio [] (LMOutcome.response 200 (LMBody.content "")) = (some "", "") :=
  ⟨by decide, c3_parse_success_returns_content [] 200 "" (by decide)⟩

/-- C4 counterexample: a server error (HTTP 500), a malformed body, and an
arbitrary other exception all produce the identical result
`(none, "⚠️ Erreur")` — ServerError and MalformedResponse are not reported as
kinds distinct from the catch-all. -/
theorem c4_server_error_not_distinct :
    query_lm_studio [] (LMOutcome.response 500 (LMBody.content "ok"))
      = query_lm_studio [] LMOutcome.otherException ∧
    query_lm_studio [] (LMOutcome.response 200 LMBody.notJson)
      = query_lm_studio [] LMOutcome.otherException ∧
    query_lm_studio [] LMOutcome.otherException = (none, "⚠️ Erreur") := by
  refine ⟨by decide, by decide, rfl⟩

/-- C4 (amended): failures are classified into three kinds, first match wins:
Timeout, ConnectionFailure, and a single generic error covering server
errors, malformed responses and all other exceptions; the three failure
messages are pairwise distinct, and every call returns either a success
`(some t, "")` or one of these three failures. -/
theorem c4_three_kind_taxonomy (messages : List Message) (outcome : LMOutcome) :
    (query_lm_studio messages LMOutcome.timeout = (none, "⏱️ Timeout") ∧
     query_lm_studio messages LMOutcome.connectionError = (none, "❌ Pas de connexion") ∧
     query_lm_studio messages LMOutcome.otherException = (none, "⚠️ Erreur")) ∧
    (("⏱️ Timeout" : String) ≠ "❌ Pas de connexion" ∧
     ("⏱️ Timeout" : String) ≠ "⚠️ Erreur" ∧
     ("❌ Pas de connexion" : String) ≠ "⚠️ Erreur") ∧
    ((∃ t, query_lm_studio messages outcome = (some t, "")) ∨
     query_lm_studio messages outcome = (none, "⏱️ Timeout") ∨
     query_lm_studio messages outcome = (none, "❌ Pas de connexion") ∨
     query_lm_studio messages outcome = (none, "⚠️ Erreur")) := by
  refine ⟨⟨rfl, rfl, rfl⟩, ⟨by decide, by decide, by decide⟩, ?_⟩
  cases outcome with
  | timeout => right; left; rfl
  | connectionError => right; right; left; rfl
  | otherException => right; right; right; rfl
  | response status body =>
    by_cases h : 400 ≤ status ∧ status < 600
    · right; right; right; unfold query_lm_studio; simp [h]
    · cases body with
      | notJson => right; right; right; unfold query_lm_studio; simp [h]
      | missingField => right; right; right; unfold query_lm_studio; simp [h]
      | content t => left; exact ⟨t, by unfold query_lm_studio; simp [h]⟩

/-- C5 counterexample: `load_history` on a corrupt file (and on a missing one)
returns the empty transcript but emits NO log record — the bare
`except: return []` swallows the failure silently, contradicting "logs the
failure". -/
theorem c5_corrupt_load_emits_no_log :
    load_history (fun _ => FileContent.corrupt) "sid" = ([], []) ∧
    load_history (fun _ => FileContent.missing) "sid" = ([], []) := ⟨rfl, rfl⟩

/-- C5 (amended): `load_history` returns an empty transcript when the file is
missing or its content is malformed, never raises to the caller, but does not
log the failure (no log record is emitted). -/
theorem c5_load_degrades_silently (fs : FS) (id : String)
    (h : fs id = FileContent.missing ∨ fs id = FileContent.corrupt) :
    load_history fs id = ([], []) := by
  unfold load_history
  rcases h with h | h <;> rw [h]

/-- Witness for the amended C5 on a filesystem whose every file is corrupt. -/
theorem c5_witness :
    ((fun _ => FileContent.corrupt) "s" = FileContent.missing ∨
     (fun _ => FileContent.corrupt) "s" = FileContent.corrupt) ∧
    load_history (fun _ => FileContent.corrupt) "s" = ([], []) :=
  ⟨Or.inr rfl, c5_load_degrades_silently _ _ (Or.inr rfl)⟩



theorem query_lm_studio_success_shape (messages : List Message) (outcome : LMOutcome)
    (h : (query_lm_studio messages outcome).2 = "") :
    ∃ t, query_lm_studio messages outcome = (some t, "") := by
  cases outcome with
  | timeout => exact absurd (show ("⏱️ Timeout" : String) = "" from h) (by decide)
  | connectionError =>
    exact absurd (show ("❌ Pas de connexion" : String) = "" from h) (by decide)
  | otherException =>
    exact absurd (show ("⚠️ Erreur" : String) = "" from h) (by decide)
  | response status body =>
    by_cases hst : 400 ≤ status ∧ status < 600
    · unfold query_lm_studio at h
      simp [hst] at h
    · cases body with
      | notJson => unfold query_lm_studio at h; simp [hst] at h
      | missingField => unfold query_lm_studio at h; simp [hst] at h
      | content t => exact ⟨t, by unfold query_lm_studio; simp [hst]⟩

theorem handle_input_rejected (s : ChatState) (fs : FS) (user_input : String)
    (outcome : LMOutcome) (writeOk : Bool)
    (hin : input_accepted user_input = false) :
    handle_input s fs user_input outcome writeOk = (s, fs) := by
  unfold handle_input
  simp [hin]

theorem handle_input_failure (s : ChatState) (fs : FS) (user_input : String)
    (outcome : LMOutcome) (writeOk : Bool)
    (hin : input_accepted user_input = true)
    (herr : (query_lm_studio [] outcome).2 ≠ "") :
    handle_input s fs user_input outcome writeOk
      = ({ s with history := s.history ++ [Message.mk "user" user_input] }, fs) := by
  have herr2 : (query_lm_studio
      (build_payload (s.history ++ [Message.mk "user" user_input])) outcome).2 ≠ "" := herr
  unfold handle_input
  simp [hin, herr2]

theorem handle_input_success (s : ChatState) (fs : FS) (user_input : String)
    (outcome : LMOutcome) (writeOk : Bool) (t : String)
    (hin : input_accepted user_input = true)
    (hok : query_lm_studio [] outcome = (some t, "")) :
    handle_input s fs user_input outcome writeOk
      = ({ s with history := s.history
            ++ [Message.mk "user" user_input, Message.mk "assistant" t] },
         save_history fs s.sessionId
           (s.history ++ [Message.mk "user" user_input, Message.mk "assistant" t])
           writeOk) := by
  have hok2 : query_lm_studio
      (build_payload (s.history ++ [Message.mk "user" user_input])) outcome
      = (some t, "") := hok
  unfold handle_input
  simp [hin, hok2]

theorem save_history_write_gt (fs : FS) (id : String) (history : List Message)
    (h : history.length > 50) :
    save_history fs id history true id
      = FileContent.stored (history.drop (history.length - 50)) := by
  unfold save_history FS.write
  simp [h]

theorem save_history_no_system (fs : FS) (id : String) (history : List Message)
    (writeOk : Bool)
    (hh : ∀ m ∈ history, m.role ≠ "system")
    (hfs : ∀ i l, fs i = FileContent.stored l → ∀ m ∈ l, m.role ≠ "system") :
    ∀ i l, save_history fs id history writeOk i = FileContent.stored l →
      ∀ m ∈ l, m.role ≠ "system" := by
  intro i l hil m hm
  unfold save_history FS.write at hil
  cases writeOk with
  | false =>
    simp only [Bool.false_eq_true, if_false] at hil
    exact hfs i l hil m hm
  | true =>
    simp only [if_true] at hil
    by_cases hi : i = id
    · rw [if_pos hi] at hil
      have hl : (if history.length > 50
          then history.drop (history.length - 50) else history) = l :=
        FileContent.stored.inj hil
      have hml : m ∈ history := by
        rw [← hl] at hm
        by_cases h50 : history.length > 50
        · rw [if_pos h50] at hm
          exact List.drop_subset _ _ hm
        · rw [if_neg h50] at hm
          exact hm
      exact hh m hml
    · rw [if_neg hi] at hil
      exact hfs i l hil m hm

/-- C7: the system prompt is prepended to the outbound payload only at send
time; one input-handling turn appends to the in-memory transcript only
messages with role "user" or "assistant", the transcript never acquires a
message with role "system", and no transcript file the handler leaves on disk
holds one (provided neither the in-memory transcript nor any pre-existing
file did). -/
theorem c7_system_prompt_never_persisted (s : ChatState) (fs : FS)
    (user_input : String) (outcome : LMOutcome) (writeOk : Bool)
    (hs : ∀ m ∈ s.history, m.role ≠ "system")
    (hfs : ∀ id l, fs id = FileContent.stored l → ∀ m ∈ l, m.role ≠ "system") :
    build_payload s.history = Message.mk "system" SYSTEM_PROMPT :: s.history ∧
    (∀ m ∈ (handle_input s fs user_input outcome writeOk).1.history.drop
        s.history.length, m.role = "user" ∨ m.role = "assistant") ∧
    (∀ m ∈ (handle_input s fs user_input outcome writeOk).1.history,
        m.role ≠ "system") ∧
    (∀ id l, (handle_input s fs user_input outcome writeOk).2 id
        = FileContent.stored l → ∀ m ∈ l, m.role ≠ "system") := by
  refine ⟨rfl, ?_⟩
  cases hin : input_accepted user_input with
  | false =>
    rw [handle_input_rejected s fs user_input outcome writeOk hin]
    dsimp only
    refine ⟨?_, hs, hfs⟩
    intro m hm
    rw [List.drop_eq_nil_of_le (le_refl _)] at hm
    cases hm
  | true =>
    by_cases herr : (query_lm_studio [] outcome).2 = ""
    · obtain ⟨t, hok⟩ := query_lm_studio_success_shape [] outcome herr
      rw [handle_input_success s fs user_input outcome writeOk t hin hok]
      dsimp only
      have hh2 : ∀ m ∈ s.history
          ++ [Message.mk "user" user_input, Message.mk "assistant" t],
          m.role ≠ "system" := by
        intro m hm
        rcases List.mem_append.mp hm with h | h
        · exact hs m h
        · simp only [List.mem_cons, List.mem_nil_iff, or_false] at h
          rcases h with rfl | rfl
          · exact (show ("user" : String) ≠ "system" by decide)
          · exact (show ("assistant" : String) ≠ "system" by decide)
      refine ⟨?_, hh2, save_history_no_system fs s.sessionId _ writeOk hh2 hfs⟩
      intro m hm
      rw [List.drop_left] at hm
      simp only [List.mem_cons, List.mem_nil_iff, or_false] at hm
      rcases hm with rfl | rfl
      · left; rfl
      · right; rfl
    · have herr2 : (query_lm_studio [] outcome).2 ≠ "" := herr
      rw [handle_input_failure s fs user_input outcome writeOk hin herr2]
      dsimp only
      have hh1 : ∀ m ∈ s.history ++ [Message.mk "user" user_input],
          m.role ≠ "system" := by
        intro m hm
        rcases List.mem_append.mp hm with h | h
        · exact hs m h
        · simp only [List.mem_singleton] at h
          subst h
          exact (show ("user" : String) ≠ "system" by decide)
      refine ⟨?_, hh1, hfs⟩
      intro m hm
      rw [List.drop_left] at hm
      simp only [List.mem_singleton] at hm
      subst hm
      left; rfl

/-- Witness for C7: one successful turn from a one-message transcript on an
empty filesystem. -/
theorem c7_witness :
    (∀ m ∈ ([Message.mk "user" "a"] : List Message), m.role ≠ "system") ∧
    (∀ id l, (fun _ => FileContent.missing : FS) id = FileContent.stored l →
        ∀ m ∈ l, m.role ≠ "system") ∧
    (build_payload [Message.mk "user" "a"]
        = Message.mk "system" SYSTEM_PROMPT :: [Message.mk "user" "a"] ∧
     (∀ m ∈ (handle_input (ChatState.mk [Message.mk "user" "a"] "s")
          (fun _ => FileContent.missing) "hi"
          (LMOutcome.response 200 (LMBody.content "ok")) true).1.history.drop
          (ChatState.mk [Message.mk "user" "a"] "s").history.length,
        m.role = "user" ∨ m.role = "assistant") ∧
     (∀ m ∈ (handle_input (ChatState.mk [Message.mk "user" "a"] "s")
          (fun _ => FileContent.missing) "hi"
          (LMOutcome.response 200 (LMBody.content "ok")) true).1.history,
        m.role ≠ "system") ∧
     (∀ id l, (handle_input (ChatState.mk [Message.mk "user" "a"] "s")
          (fun _ => FileContent.missing) "hi"
          (LMOutcome.response 200 (LMBody.content "ok")) true).2 id
        = FileContent.stored l → ∀ m ∈ l, m.role ≠ "system")) :=
  ⟨by decide,
   fun id l h => by simp at h,
   c7_system_prompt_never_persisted (ChatState.mk [Message.mk "user" "a"] "s")
     (fun _ => FileContent.missing) "hi"
     (LMOutcome.response 200 (LMBody.content "ok")) true
     (by decide) (fun id l h => by simp at h)⟩

/-- C8 counterexample: the startup gate shows the identical generic message
whether the endpoint URL or the auth model name is the missing value, so the
report does not identify which value is missing. -/
theorem c8_missing_value_not_identified :
    startup_message (Env.mk none (some "m") (some "s") (some "p"))
      = startup_message (Env.mk (some "u") none (some "s") (some "p")) ∧
    startup_message (Env.mk none (some "m") (some "s") (some "p"))
      = some "❌ Variables d'env manquantes" ∧
    startup_message (Env.mk (some "u") (some "m") (some "s") (some "p")) = none := by
  refine ⟨by decide, by decide, by decide⟩

/-- C8 (amended): if any required configuration value is missing or empty at
startup, the process refuses to continue before accepting any interaction,
displaying one fixed generic message that does not name the missing value;
with all four values present it proceeds. -/
theorem c8_startup_halts_generic (e : Env) :
    (startup_message e = none ↔
      (truthy e.LM_STUDIO_URL = true ∧ truthy e.MODEL_NAME = true ∧
       truthy e.SESSION_SECRET = true ∧ truthy e.AUTH_PASSWORD = true)) ∧
    (startup_message e = none ∨
      startup_message e = some "❌ Variables d'env manquantes") := by
  unfold startup_message
  cases hu : truthy e.LM_STUDIO_URL <;> cases hm : truthy e.MODEL_NAME <;>
    cases hsec : truthy e.SESSION_SECRET <;> cases hp : truthy e.AUTH_PASSWORD <;>
    simp

/-- C9: reset clears the in-memory transcript, persists an empty transcript
under the same session id, and leaves the session id unchanged. -/
theorem c9_reset_clears_and_persists_empty (s : ChatState) (fs : FS) :
    (reset_conversation s fs).1.history = [] ∧
    (reset_conversation s fs).2 s.sessionId = FileContent.stored [] ∧
    (reset_conversation s fs).1.sessionId = s.sessionId := by
  refine ⟨rfl, ?_, rfl⟩
  unfold reset_conversation save_history FS.write
  simp

/-- C10: the in-memory transcript is never truncated by `save_history`: after
a successful turn it equals the old transcript plus the user and assistant
messages (its length grows by 2, without bound), while the persisted file for
the session keeps only the most recent 50 messages once the transcript
exceeds 50, and so differs from the full in-memory transcript. -/
theorem c10_memory_not_truncated (s : ChatState) (fs : FS) (user_input : String)
    (outcome : LMOutcome) (t : String)
    (hin : input_accepted user_input = true)
    (hok : query_lm_studio [] outcome = (some t, ""))
    (hlen : 49 ≤ s.history.length) :
    (handle_input s fs user_input outcome true).1.history
      = s.history ++ [Message.mk "user" user_input, Message.mk "assistant" t] ∧
    (handle_input s fs user_input outcome true).1.history.length
      = s.history.length + 2 ∧
    50 < (handle_input s fs user_input outcome true).1.history.length ∧
    (handle_input s fs user_input outcome true).2 s.sessionId
      = FileContent.stored
          ((handle_input s fs user_input outcome true).1.history.drop
            ((handle_input s fs user_input outcome true).1.history.length - 50)) ∧
    (handle_input s fs user_input outcome true).2 s.sessionId
      ≠ FileContent.stored (handle_input s fs user_input outcome true).1.history := by
  rw [handle_input_success s fs user_input outcome true t hin hok]
  dsimp only
  have hlen2 : (s.history
      ++ [Message.mk "user" user_input, Message.mk "assistant" t]).length
      = s.history.length + 2 := by simp
  have h50 : (s.history
      ++ [Message.mk "user" user_input, Message.mk "assistant" t]).length > 50 := by
    omega
  have hsave : save_history fs s.sessionId
      (s.history ++ [Message.mk "user" user_input, Message.mk "assistant" t]) true
      s.sessionId
      = FileContent.stored
          ((s.history ++ [Message.mk "user" user_input, Message.mk "assistant" t]).drop
            ((s.history
              ++ [Message.mk "user" user_input, Message.mk "assistant" t]).length
              - 50)) :=
    save_history_write_gt fs s.sessionId _ h50
  refine ⟨rfl, hlen2, by omega, hsave, ?_⟩
  rw [hsave]
  intro hcon
  have heq := FileContent.stored.inj hcon
  have hdl := congrArg List.length heq
  rw [List.length_drop] at hdl
  omega

/-- Witness for C10: a successful turn on a 49-message transcript. -/
theorem c10_witness :
    input_accepted "q" = true ∧
    query_lm_studio [] (LMOutcome.response 200 (LMBody.content "r")) = (some "r", "") ∧
    49 ≤ (List.replicate 49 (Message.mk "user" "x")).length ∧
    ((handle_input (ChatState.mk (List.replicate 49 (Message.mk "user" "x")) "s")
        (fun _ => FileContent.missing) "q"
        (LMOutcome.response 200 (LMBody.content "r")) true).1.history
      = List.replicate 49 (Message.mk "user" "x")
        ++ [Message.mk "user" "q", Message.mk "assistant" "r"] ∧
     (handle_input (ChatState.mk (List.replicate 49 (Message.mk "user" "x")) "s")
        (fun _ => FileContent.missing) "q"
        (LMOutcome.response 200 (LMBody.content "r")) true).1.history.length
      = (List.replicate 49 (Message.mk "user" "x")).length + 2 ∧
     50 < (handle_input (ChatState.mk (List.replicate 49 (Message.mk "user" "x")) "s")
        (fun _ => FileContent.missing) "q"
        (LMOutcome.response 200 (LMBody.content "r")) true).1.history.length ∧
     (handle_input (ChatState.mk (List.replicate 49 (Message.mk "user" "x")) "s")
        (fun _ => FileContent.missing) "q"
        (LMOutcome.response 200 (LMBody.content "r")) true).2 "s"
      = FileContent.stored
          ((handle_input (ChatState.mk (List.replicate 49 (Message.mk "user" "x")) "s")
              (fun _ => FileContent.missing) "q"
              (LMOutcome.response 200 (LMBody.content "r")) true).1.history.drop
            ((handle_input (ChatState.mk (List.replicate 49 (Message.mk "user" "x")) "s")
                (fun _ => FileContent.missing) "q"
                (LMOutcome.response 200 (LMBody.content "r")) true).1.history.length
              - 50)) ∧
     (handle_input (ChatState.mk (List.replicate 49 (Message.mk "user" "x")) "s")
        (fun _ => FileContent.missing) "q"
        (LMOutcome.response 200 (LMBody.content "r")) true).2 "s"
      ≠ FileContent.stored
          (handle_input (ChatState.mk (List.replicate 49 (Message.mk "user" "x")) "s")
              (fun _ => FileContent.missing) "q"
              (LMOutcome.response 200 (LMBody.content "r")) true).1.history) :=
  ⟨by decide, by decide, by decide,
   c10_memory_not_truncated
     (ChatState.mk (List.replicate 49 (Message.mk "user" "x")) "s")
     (fun _ => FileContent.missing) "q"
     (LMOutcome.response 200 (LMBody.content "r")) "r"
     (by decide) (by decide) (by decide)⟩


end Chatbot
